import Mathlib

/-!
Verification of the Intcode interpreter in `src/main.rs` and `src/processor.rs`.

The two files share the same data model and almost all of their code:
`ParameterMode`, `InstructionType`, `Instruction`, `current_instruction`,
`get_parameter`, `get_parameter_with_mode`, `parse_mode`, `binary_operation`,
`read` and `conditional_jump` are textually identical in both files, so they
are translated once below.  The parts that differ between the two files —
`print` (with/without a line terminator) and `step`/`run` (error propagation
versus discarding the handler's `Result`) — are translated separately in the
namespaces `Proc` (for `processor.rs`) and `Main` (for `main.rs`).

Machine integers: memory cells are Rust `i32`; arithmetic wraps modulo 2^32
(`wrap32`).  Addresses are produced by `as usize` casts of `i32` values on a
64-bit platform, i.e. reduction modulo 2^64 (`usizeOfI32`).  Rust `%` and `/`
on `i32` truncate towards zero, so the decoder uses `Int.tmod` / `Int.tdiv`.

Failures: Rust panics (out-of-bounds indexing, `expect` on an invalid opcode
or parameter mode, `unwrap` on a missing or unparsable input line) and the
one constructed `Result::Err` value ("got immediate parameter mode for store
address") are all modelled as `Except.error` with an `Err` describing the
condition; `Err.storeAddressImmediate` is the only `Result::Err` the handlers
ever build, every other `Err` constructor models a panic.
-/

namespace Intcode

/-- Translation of `enum ParameterMode` (identical in both files). -/
inductive ParameterMode where
  | Memory
  | Immediate
deriving DecidableEq, Repr

/-- Translation of `enum InstructionType` (identical in both files). -/
inductive InstructionType where
  | Add
  | Multiply
  | Read
  | Print
  | JumpNZ
  | JumpZ
  | IsLessThan
  | IsEqual
  | Halt
deriving DecidableEq, Repr

/-- Translation of `struct Instruction` (identical in both files). -/
structure Instruction where
  i_type : InstructionType
  p1_mode : ParameterMode
  p2_mode : ParameterMode
  p3_mode : ParameterMode
deriving DecidableEq, Repr

/-- Error conditions.  `storeAddressImmediate` is the one `Result::Err` the
source constructs ("got immediate parameter mode for store address"); all
other constructors model Rust panics (out-of-bounds indexing, `expect` on
decode, `unwrap` on input). -/
inductive Err where
  | invalidOpcode (v : Int)
  | invalidParameterMode (v : Int)
  | oob (addr : Nat)
  | noInputLine
  | badInputLine (line : String)
  | storeAddressImmediate
deriving DecidableEq, Repr

/-- The processor state: `memory` and `ip` are the fields of
`struct Processor`; `input` is the remaining lines of the input source and
`output` the text written to the output sink so far. -/
structure State where
  memory : List Int
  ip : Nat
  input : List String
  output : String
deriving DecidableEq, Repr

/-- Rust `i32` wraparound arithmetic: reduce into `[-2^31, 2^31)`. -/
def wrap32 (x : Int) : Int := (x + 2 ^ 31) % (2 ^ 32 : Int) - 2 ^ 31

/-- Rust `x as usize` for `x : i32` on a 64-bit platform: sign-extend and
reinterpret, i.e. reduce modulo 2^64 (negative values become huge). -/
def usizeOfI32 (x : Int) : Nat := (x % (2 ^ 64 : Int)).toNat

/-- Rust `self.memory[i]`: the value at index `i`, or a panic (modelled as
`Err.oob`) when `i` is out of bounds. -/
def getMem (s : State) (i : Nat) : Except Err Int :=
  match s.memory.get? i with
  | some v => Except.ok v
  | none => Except.error (Err.oob i)

/-- Rust `self.memory[i] = v`: in-bounds update, or a panic (`Err.oob`). -/
def setMem (s : State) (i : Nat) (v : Int) : Except Err State :=
  if i < s.memory.length then Except.ok { s with memory := s.memory.set i v }
  else Except.error (Err.oob i)

/-- Digit accumulation for `i32::from_str` (no sign, ASCII digits only). -/
def parseNatDigits : List Char → Nat → Option Nat
  | [], acc => some acc
  | c :: cs, acc =>
      if c.isDigit then parseNatDigits cs (acc * 10 + (c.toNat - '0'.toNat))
      else none

/-- At least one digit is required by `i32::from_str`. -/
def parseNatFrom : List Char → Option Nat
  | [] => none
  | c :: cs => parseNatDigits (c :: cs) 0

/-- Translation of `i32::from_str`: optional sign, one or more ASCII digits,
result within the `i32` range. -/
def parseI32 (str : String) : Option Int :=
  match str.data with
  | '-' :: cs =>
      match parseNatFrom cs with
      | some n => if n ≤ 2 ^ 31 then some (-(n : Int)) else none
      | none => none
  | '+' :: cs =>
      match parseNatFrom cs with
      | some n => if n ≤ 2 ^ 31 - 1 then some (n : Int) else none
      | none => none
  | cs =>
      match parseNatFrom cs with
      | some n => if n ≤ 2 ^ 31 - 1 then some (n : Int) else none
      | none => none

/-- Translation of `Processor::parse_mode` / `ParameterMode::try_from`
(identical in both files): digit 0 is `Memory`, digit 1 is `Immediate`,
anything else panics with "invalid parameter mode". -/
def parse_mode (m : Int) : Except Err ParameterMode :=
  if m = 0 then Except.ok ParameterMode.Memory
  else if m = 1 then Except.ok ParameterMode.Immediate
  else Except.error (Err.invalidParameterMode m)

/-- Translation of `InstructionType::try_from` (the `num_enum` mapping over
the declared discriminants); anything else panics with "invalid opcode". -/
def decode_itype (n : Int) : Except Err InstructionType :=
  if n = 1 then Except.ok InstructionType.Add
  else if n = 2 then Except.ok InstructionType.Multiply
  else if n = 3 then Except.ok InstructionType.Read
  else if n = 4 then Except.ok InstructionType.Print
  else if n = 5 then Except.ok InstructionType.JumpNZ
  else if n = 6 then Except.ok InstructionType.JumpZ
  else if n = 7 then Except.ok InstructionType.IsLessThan
  else if n = 8 then Except.ok InstructionType.IsEqual
  else if n = 99 then Except.ok InstructionType.Halt
  else Except.error (Err.invalidOpcode n)

/-- The decoding arithmetic of `Processor::current_instruction` applied to an
instruction value `v` (identical in both files): opcode from `v % 100`, then
the three mode digits from `(v / 100) % 10`, `(v / 1000) % 10`,
`(v / 10000) % 10`, with Rust truncated `%` and `/`. -/
def decodeValue (v : Int) : Except Err Instruction :=
  match decode_itype (Int.tmod v 100) with
  | Except.error e => Except.error e
  | Except.ok t =>
  match parse_mode (Int.tmod (Int.tdiv v 100) 10) with
  | Except.error e => Except.error e
  | Except.ok m1 =>
  match parse_mode (Int.tmod (Int.tdiv v 1000) 10) with
  | Except.error e => Except.error e
  | Except.ok m2 =>
  match parse_mode (Int.tmod (Int.tdiv v 10000) 10) with
  | Except.error e => Except.error e
  | Except.ok m3 => Except.ok ⟨t, m1, m2, m3⟩

/-- Translation of `Processor::current_instruction` (identical in both
files): fetch `memory[ip]` and decode it. -/
def current_instruction (s : State) : Except Err Instruction :=
  match getMem s s.ip with
  | Except.error e => Except.error e
  | Except.ok v => decodeValue v

/-- Translation of `Processor::get_parameter` (identical in both files). -/
def get_parameter (s : State) (i : Nat) : Except Err Int :=
  getMem s (s.ip + i)

/-- Translation of `Processor::get_parameter_with_mode` (identical in both
files): `Memory` dereferences `memory[memory[ip+i] as usize]`, `Immediate`
reads `memory[ip+i]` directly. -/
def get_parameter_with_mode (s : State) (i : Nat) (mode : ParameterMode) :
    Except Err Int :=
  match mode with
  | ParameterMode.Memory =>
      match getMem s (s.ip + i) with
      | Except.error e => Except.error e
      | Except.ok raw => getMem s (usizeOfI32 raw)
  | ParameterMode.Immediate => getMem s (s.ip + i)

/-- Translation of `Processor::binary_operation` (identical in both files):
read `p1` and `p2` by mode, reject an `Immediate` write target, then store
`op (p1, p2)` at `memory[ip+3] as usize` and advance `ip` by 4. -/
def binary_operation (op : Int → Int → Int) (s : State) : Except Err State :=
  match current_instruction s with
  | Except.error e => Except.error e
  | Except.ok instruction =>
  match get_parameter_with_mode s 1 instruction.p1_mode with
  | Except.error e => Except.error e
  | Except.ok p1 =>
  match get_parameter_with_mode s 2 instruction.p2_mode with
  | Except.error e => Except.error e
  | Except.ok p2 =>
  if instruction.p3_mode = ParameterMode.Immediate then
    Except.error Err.storeAddressImmediate
  else
  match get_parameter s 3 with
  | Except.error e => Except.error e
  | Except.ok p3 =>
  match setMem s (usizeOfI32 p3) (op p1 p2) with
  | Except.error e => Except.error e
  | Except.ok t => Except.ok { t with ip := t.ip + 4 }

/-- Translation of `Processor::read` (the two files differ only in where the
line comes from — process stdin versus the injected reader — both modelled
as consuming the head of `input`): reject an `Immediate` write target, then
consume one line, parse it as `i32`, store it at `memory[ip+1] as usize`
and advance `ip` by 2. -/
def read (s : State) : Except Err State :=
  match current_instruction s with
  | Except.error e => Except.error e
  | Except.ok instruction =>
  if instruction.p1_mode = ParameterMode.Immediate then
    Except.error Err.storeAddressImmediate
  else
  match get_parameter s 1 with
  | Except.error e => Except.error e
  | Except.ok p1 =>
  match s.input with
  | [] => Except.error Err.noInputLine
  | line :: rest =>
  match parseI32 line with
  | none => Except.error (Err.badInputLine line)
  | some v =>
  match setMem { s with input := rest } (usizeOfI32 p1) v with
  | Except.error e => Except.error e
  | Except.ok t => Except.ok { t with ip := t.ip + 2 }

/-- Translation of `Processor::conditional_jump` (identical in both files):
read `p1` and `p2` by mode; when the condition holds set `ip` to
`p2 as usize`, otherwise advance `ip` by 3. -/
def conditional_jump (condition : Int → Bool) (s : State) :
    Except Err State :=
  match current_instruction s with
  | Except.error e => Except.error e
  | Except.ok instruction =>
  match get_parameter_with_mode s 1 instruction.p1_mode with
  | Except.error e => Except.error e
  | Except.ok p1 =>
  match get_parameter_with_mode s 2 instruction.p2_mode with
  | Except.error e => Except.error e
  | Except.ok p2 =>
  if condition p1 then Except.ok { s with ip := usizeOfI32 p2 }
  else Except.ok { s with ip := s.ip + 3 }

/-- Lift a handler result to a step result (both `step` functions map a
successful handler to "not halted"). -/
def asStep (s : Except Err State) : Except Err (Bool × State) :=
  match s with
  | Except.error e => Except.error e
  | Except.ok t => Except.ok (false, t)

namespace Proc

/-- Translation of `Processor::print` in `src/processor.rs`:
`writeln!(self.output, "{}", p1)` — the value followed by a newline. -/
def print (s : State) : Except Err State :=
  match current_instruction s with
  | Except.error e => Except.error e
  | Except.ok instruction =>
  match get_parameter_with_mode s 1 instruction.p1_mode with
  | Except.error e => Except.error e
  | Except.ok p1 =>
      Except.ok { s with output := s.output ++ toString p1 ++ "\n",
                         ip := s.ip + 2 }

/-- Translation of `Processor::step` in `src/processor.rs`: dispatch on the
decoded instruction type; the `?` operator propagates every handler error. -/
def step (s : State) : Except Err (Bool × State) :=
  match current_instruction s with
  | Except.error e => Except.error e
  | Except.ok instruction =>
  match instruction.i_type with
  | InstructionType.Add =>
      asStep (binary_operation (fun p1 p2 => wrap32 (p1 + p2)) s)
  | InstructionType.Multiply =>
      asStep (binary_operation (fun p1 p2 => wrap32 (p1 * p2)) s)
  | InstructionType.Read => asStep (read s)
  | InstructionType.Print => asStep (print s)
  | InstructionType.JumpNZ => asStep (conditional_jump (fun p1 => p1 != 0) s)
  | InstructionType.JumpZ => asStep (conditional_jump (fun p1 => p1 == 0) s)
  | InstructionType.IsLessThan =>
      asStep (binary_operation (fun p1 p2 => if p1 < p2 then 1 else 0) s)
  | InstructionType.IsEqual =>
      asStep (binary_operation (fun p1 p2 => if p1 = p2 then 1 else 0) s)
  | InstructionType.Halt => Except.ok (true, s)

/-- Translation of `Processor::run` in `src/processor.rs`
(`while !self.step().unwrap() { }`), with explicit fuel: `some` final state
when Halt is reached, `none` when the fuel runs out, and the first step
error otherwise (the `unwrap` panic). -/
def run : Nat → State → Except Err (Option State)
  | 0, _ => Except.ok none
  | Nat.succ n, s =>
      match step s with
      | Except.error e => Except.error e
      | Except.ok (true, t) => Except.ok (some t)
      | Except.ok (false, t) => run n t

end Proc

namespace Main

/-- Translation of `Processor::print` in `src/main.rs`:
`print!("{}", p1)` — the bare value, with no line terminator. -/
def print (s : State) : Except Err State :=
  match current_instruction s with
  | Except.error e => Except.error e
  | Except.ok instruction =>
  match get_parameter_with_mode s 1 instruction.p1_mode with
  | Except.error e => Except.error e
  | Except.ok p1 =>
      Except.ok { s with output := s.output ++ toString p1,
                         ip := s.ip + 2 }

/-- The `let _ = match ...` in `Processor::step` of `src/main.rs`: the
handler's `Result` is discarded, so its only `Err` value
(`storeAddressImmediate`) is swallowed and the step reports "not halted"
with the state the handler left (unchanged, since the handlers return that
`Err` before any mutation); panics (every other `Err` here) propagate. -/
def swallow (s : State) (r : Except Err State) : Except Err (Bool × State) :=
  match r with
  | Except.ok t => Except.ok (false, t)
  | Except.error Err.storeAddressImmediate => Except.ok (false, s)
  | Except.error e => Except.error e

/-- Translation of `Processor::step` in `src/main.rs`: same dispatch as
`processor.rs`, but the handler's `Result` is discarded (`swallow`). -/
def step (s : State) : Except Err (Bool × State) :=
  match current_instruction s with
  | Except.error e => Except.error e
  | Except.ok instruction =>
  match instruction.i_type with
  | InstructionType.Add =>
      swallow s (binary_operation (fun p1 p2 => wrap32 (p1 + p2)) s)
  | InstructionType.Multiply =>
      swallow s (binary_operation (fun p1 p2 => wrap32 (p1 * p2)) s)
  | InstructionType.Read => swallow s (read s)
  | InstructionType.Print => swallow s (print s)
  | InstructionType.JumpNZ =>
      swallow s (conditional_jump (fun p1 => p1 != 0) s)
  | InstructionType.JumpZ =>
      swallow s (conditional_jump (fun p1 => p1 == 0) s)
  | InstructionType.IsLessThan =>
      swallow s (binary_operation (fun p1 p2 => if p1 < p2 then 1 else 0) s)
  | InstructionType.IsEqual =>
      swallow s (binary_operation (fun p1 p2 => if p1 = p2 then 1 else 0) s)
  | InstructionType.Halt => Except.ok (true, s)

/-- Translation of `Processor::run` in `src/main.rs`
(`while !self.step() { }`), with explicit fuel. -/
def run : Nat → State → Except Err (Option State)
  | 0, _ => Except.ok none
  | Nat.succ n, s =>
      match step s with
      | Except.error e => Except.error e
      | Except.ok (true, t) => Except.ok (some t)
      | Except.ok (false, t) => run n t

end Main

/-- The `#[repr(i32)]` discriminant of each `InstructionType` variant. -/
def itypeCode : InstructionType → Int
  | InstructionType.Add => 1
  | InstructionType.Multiply => 2
  | InstructionType.Read => 3
  | InstructionType.Print => 4
  | InstructionType.JumpNZ => 5
  | InstructionType.JumpZ => 6
  | InstructionType.IsLessThan => 7
  | InstructionType.IsEqual => 8
  | InstructionType.Halt => 99

/-- The `#[repr(i32)]` discriminant of each `ParameterMode` variant. -/
def modeCode : ParameterMode → Int
  | ParameterMode.Memory => 0
  | ParameterMode.Immediate => 1

theorem decode_itype_ok (n : Int) (t : InstructionType)
    (h : decode_itype n = Except.ok t) : itypeCode t = n := by
  unfold decode_itype at h
  split_ifs at h with h1 h2 h3 h4 h5 h6 h7 h8 h9
  all_goals injection h with h
  all_goals subst h
  all_goals simp only [itypeCode]
  all_goals omega

theorem parse_mode_ok (m : Int) (md : ParameterMode)
    (h : parse_mode m = Except.ok md) : modeCode md = m := by
  unfold parse_mode at h
  split_ifs at h with h1 h2
  all_goals injection h with h
  all_goals subst h
  all_goals simp only [modeCode]
  all_goals omega

theorem decodeValue_ok (v : Int) (instr : Instruction)
    (h : decodeValue v = Except.ok instr) :
    itypeCode instr.i_type = Int.tmod v 100 ∧
    modeCode instr.p1_mode = Int.tmod (Int.tdiv v 100) 10 ∧
    modeCode instr.p2_mode = Int.tmod (Int.tdiv v 1000) 10 ∧
    modeCode instr.p3_mode = Int.tmod (Int.tdiv v 10000) 10 := by
  unfold decodeValue at h
  split at h
  · exact Except.noConfusion h
  next t ht =>
  split at h
  · exact Except.noConfusion h
  next m1 hm1 =>
  split at h
  · exact Except.noConfusion h
  next m2 hm2 =>
  split at h
  · exact Except.noConfusion h
  next m3 hm3 =>
  injection h with h
  subst h
  exact ⟨decode_itype_ok _ _ ht, parse_mode_ok _ _ hm1,
    parse_mode_ok _ _ hm2, parse_mode_ok _ _ hm3⟩

/-- C3: whenever the decoder of `current_instruction` accepts the
instruction value `v`, the decoded opcode discriminant is `v mod 100` and
the decoded mode digit of parameter `i` is `(v / 10^(i+1)) mod 10` (with
Rust's truncated `%` and `/`); in particular `1002` decodes to Multiply
with modes Positional, Immediate, Positional. -/
theorem C3_decode :
    (∀ v instr, decodeValue v = Except.ok instr →
      itypeCode instr.i_type = Int.tmod v 100 ∧
      modeCode instr.p1_mode = Int.tmod (Int.tdiv v (10 ^ 2)) 10 ∧
      modeCode instr.p2_mode = Int.tmod (Int.tdiv v (10 ^ 3)) 10 ∧
      modeCode instr.p3_mode = Int.tmod (Int.tdiv v (10 ^ 4)) 10) ∧
    decodeValue 1002 = Except.ok ⟨InstructionType.Multiply,
      ParameterMode.Memory, ParameterMode.Immediate, ParameterMode.Memory⟩ := by
  constructor
  · intro v instr h
    have e2 : ((10 : Int) ^ 2) = 100 := by norm_num
    have e3 : ((10 : Int) ^ 3) = 1000 := by norm_num
    have e4 : ((10 : Int) ^ 4) = 10000 := by norm_num
    rw [e2, e3, e4]
    exact decodeValue_ok v instr h
  · rfl

/-- C3 witness: the decode formula instantiated at the concrete
instruction value 1002. -/
theorem C3_decode_witness :
    itypeCode InstructionType.Multiply = Int.tmod 1002 100 ∧
    modeCode ParameterMode.Memory = Int.tmod (Int.tdiv 1002 (10 ^ 2)) 10 ∧
    modeCode ParameterMode.Immediate = Int.tmod (Int.tdiv 1002 (10 ^ 3)) 10 ∧
    modeCode ParameterMode.Memory = Int.tmod (Int.tdiv 1002 (10 ^ 4)) 10 :=
  C3_decode.1 1002 ⟨InstructionType.Multiply, ParameterMode.Memory,
    ParameterMode.Immediate, ParameterMode.Memory⟩ C3_decode.2

theorem proc_step_dispatch (s : State) (instr : Instruction)
    (h : current_instruction s = Except.ok instr) :
    Proc.step s =
      match instr.i_type with
      | InstructionType.Add =>
          asStep (binary_operation (fun p1 p2 => wrap32 (p1 + p2)) s)
      | InstructionType.Multiply =>
          asStep (binary_operation (fun p1 p2 => wrap32 (p1 * p2)) s)
      | InstructionType.Read => asStep (read s)
      | InstructionType.Print => asStep (Proc.print s)
      | InstructionType.JumpNZ =>
          asStep (conditional_jump (fun p1 => p1 != 0) s)
      | InstructionType.JumpZ =>
          asStep (conditional_jump (fun p1 => p1 == 0) s)
      | InstructionType.IsLessThan =>
          asStep (binary_operation (fun p1 p2 => if p1 < p2 then 1 else 0) s)
      | InstructionType.IsEqual =>
          asStep (binary_operation (fun p1 p2 => if p1 = p2 then 1 else 0) s)
      | InstructionType.Halt => Except.ok (true, s) := by
  unfold Proc.step
  rw [h]

theorem main_step_dispatch (s : State) (instr : Instruction)
    (h : current_instruction s = Except.ok instr) :
    Main.step s =
      match instr.i_type with
      | InstructionType.Add =>
          Main.swallow s (binary_operation (fun p1 p2 => wrap32 (p1 + p2)) s)
      | InstructionType.Multiply =>
          Main.swallow s (binary_operation (fun p1 p2 => wrap32 (p1 * p2)) s)
      | InstructionType.Read => Main.swallow s (read s)
      | InstructionType.Print => Main.swallow s (Main.print s)
      | InstructionType.JumpNZ =>
          Main.swallow s (conditional_jump (fun p1 => p1 != 0) s)
      | InstructionType.JumpZ =>
          Main.swallow s (conditional_jump (fun p1 => p1 == 0) s)
      | InstructionType.IsLessThan =>
          Main.swallow s (binary_operation (fun p1 p2 => if p1 < p2 then 1 else 0) s)
      | InstructionType.IsEqual =>
          Main.swallow s (binary_operation (fun p1 p2 => if p1 = p2 then 1 else 0) s)
      | InstructionType.Halt => Except.ok (true, s) := by
  unfold Main.step
  rw [h]

theorem proc_step_err (s : State) (e : Err)
    (h : current_instruction s = Except.error e) :
    Proc.step s = Except.error e := by
  unfold Proc.step
  rw [h]

theorem main_step_err (s : State) (e : Err)
    (h : current_instruction s = Except.error e) :
    Main.step s = Except.error e := by
  unfold Main.step
  rw [h]

theorem binary_operation_sAI (op : Int → Int → Int) (s : State)
    (instr : Instruction) (p1 p2 : Int)
    (h : current_instruction s = Except.ok instr)
    (h1 : get_parameter_with_mode s 1 instr.p1_mode = Except.ok p1)
    (h2 : get_parameter_with_mode s 2 instr.p2_mode = Except.ok p2)
    (h3 : instr.p3_mode = ParameterMode.Immediate) :
    binary_operation op s = Except.error Err.storeAddressImmediate := by
  simp only [binary_operation, h, h1, h2, h3, if_pos]

theorem read_sAI (s : State) (instr : Instruction)
    (h : current_instruction s = Except.ok instr)
    (h1 : instr.p1_mode = ParameterMode.Immediate) :
    read s = Except.error Err.storeAddressImmediate := by
  simp only [read, h, h1, if_pos]

theorem conditional_jump_eq (condition : Int → Bool) (s : State)
    (instr : Instruction) (p1 p2 : Int)
    (h : current_instruction s = Except.ok instr)
    (h1 : get_parameter_with_mode s 1 instr.p1_mode = Except.ok p1)
    (h2 : get_parameter_with_mode s 2 instr.p2_mode = Except.ok p2) :
    conditional_jump condition s =
      Except.ok (if condition p1 then { s with ip := usizeOfI32 p2 }
                 else { s with ip := s.ip + 3 }) := by
  simp only [conditional_jump, h, h1, h2]
  by_cases hc : condition p1 <;> simp [hc]

theorem proc_print_eq (s : State) (instr : Instruction) (p1 : Int)
    (h : current_instruction s = Except.ok instr)
    (h1 : get_parameter_with_mode s 1 instr.p1_mode = Except.ok p1) :
    Proc.print s = Except.ok { s with output := s.output ++ toString p1 ++ "\n",
                                      ip := s.ip + 2 } := by
  simp only [Proc.print, h, h1]

theorem main_print_eq (s : State) (instr : Instruction) (p1 : Int)
    (h : current_instruction s = Except.ok instr)
    (h1 : get_parameter_with_mode s 1 instr.p1_mode = Except.ok p1) :
    Main.print s = Except.ok { s with output := s.output ++ toString p1,
                                      ip := s.ip + 2 } := by
  simp only [Main.print, h, h1]

/-- C5: running the interpreter on `[1,9,10,3,2,3,11,0,99,30,40,50]` reaches
Halt without error, and memory cell 0 of the final state is 3500. -/
theorem C5_day2_example :
    Proc.run 10 ⟨[1, 9, 10, 3, 2, 3, 11, 0, 99, 30, 40, 50], 0, [], ""⟩ =
      Except.ok (some ⟨[3500, 9, 10, 70, 2, 3, 11, 0, 99, 30, 40, 50], 8, [], ""⟩) ∧
    ([3500, 9, 10, 70, 2, 3, 11, 0, 99, 30, 40, 50] : List Int).get? 0 =
      some 3500 := by
  constructor
  · rfl
  · rfl

/-- C1 (supporting theorem for the code bug): on the program
`[11101,0,0,0,99]` — an Add whose write target is in Immediate mode — the
`main.rs` version of `step` discards the handler's descriptive error and
reports "not halted" with the state unchanged, so its run loop re-executes
the same failing instruction forever (the run never halts and never surfaces
an error, for any amount of fuel); the `processor.rs` version aborts with
the error, as the claim requires. -/
theorem C1_main_swallows_write_target_error :
    (∀ n, Main.run n ⟨[11101, 0, 0, 0, 99], 0, [], ""⟩ = Except.ok none) ∧
    Main.step ⟨[11101, 0, 0, 0, 99], 0, [], ""⟩ =
      Except.ok (false, ⟨[11101, 0, 0, 0, 99], 0, [], ""⟩) ∧
    Proc.step ⟨[11101, 0, 0, 0, 99], 0, [], ""⟩ =
      Except.error Err.storeAddressImmediate := by
  refine ⟨?_, rfl, rfl⟩
  intro n
  induction n with
  | zero => rfl
  | succ n ih =>
      show Main.run (n + 1) _ = _
      rw [Main.run]
      exact ih

/-- C2 (counterexample): on the program `[4,0,99]` the two versions do not
emit the same output text — the `processor.rs` version writes the line
`"4\n"` while the `main.rs` version writes the bare `"4"` with no line
terminator. -/
theorem C2_counterexample_output_differs :
    Proc.run 3 ⟨[4, 0, 99], 0, [], ""⟩ =
      Except.ok (some ⟨[4, 0, 99], 2, [], "4\n"⟩) ∧
    Main.run 3 ⟨[4, 0, 99], 0, [], ""⟩ =
      Except.ok (some ⟨[4, 0, 99], 2, [], "4"⟩) ∧
    ("4\n" : String) ≠ "4" := by
  refine ⟨rfl, rfl, ?_⟩
  decide

/-- C4 (counterexample): in the state with memory `[10102,0,9,0]` the
current instruction is Multiply with its write-target (p3) mode Immediate,
yet the step does not fail with the write-target-mode error: the positional
read of p2 dereferences the out-of-bounds address 9 first, so the step fails
with the out-of-bounds error instead. -/
theorem C4_counterexample_oob_preempts :
    current_instruction ⟨[10102, 0, 9, 0], 0, [], ""⟩ =
      Except.ok ⟨InstructionType.Multiply, ParameterMode.Immediate,
        ParameterMode.Memory, ParameterMode.Immediate⟩ ∧
    Proc.step ⟨[10102, 0, 9, 0], 0, [], ""⟩ = Except.error (Err.oob 9) ∧
    Err.oob 9 ≠ Err.storeAddressImmediate := by
  refine ⟨rfl, rfl, ?_⟩
  decide

/-- C7 (counterexample): a JumpNZ with a taken branch whose target
`value(p2)` is the negative value `-1` does not set the instruction pointer
to `value(p2)`: the `as usize` cast wraps, leaving `ip = 2^64 - 1`. -/
theorem C7_counterexample_negative_target :
    get_parameter_with_mode ⟨[1105, 1, -1], 0, [], ""⟩ 2
        ParameterMode.Immediate = Except.ok (-1) ∧
    Proc.step ⟨[1105, 1, -1], 0, [], ""⟩ =
      Except.ok (false, ⟨[1105, 1, -1], 18446744073709551615, [], ""⟩) ∧
    ((18446744073709551615 : Int) ≠ -1) := by
  refine ⟨rfl, rfl, ?_⟩
  decide

/-- C8 (counterexample): executing the Print instruction of
`[3,0,4,0,99]` (after the Read has stored 42) in the `main.rs` version
appends the bare `"42"` to the output — not `"42"` followed by a line
terminator — so the claim's "each Print instruction writes the decimal
representation followed by a line terminator" fails for that version. -/
theorem C8_counterexample_main_print :
    Main.step ⟨[42, 0, 4, 0, 99], 2, [], ""⟩ =
      Except.ok (false, ⟨[42, 0, 4, 0, 99], 4, [], "42"⟩) ∧
    ("42" : String) ≠ "42" ++ "\n" := by
  refine ⟨rfl, ?_⟩
  decide

/-- C4 (amended): whenever the current instruction is Add, Multiply,
IsLessThan or IsEqual with its write-target (p3) mode Immediate and the two
read parameters resolve successfully — or is Read with its write-target (p1)
mode Immediate — the step fails with the write-target-mode error and no
memory cell is mutated (the `main.rs` step even returns the whole state
unchanged; the `processor.rs` step aborts before producing any state). -/
theorem C4_write_target_immediate :
    (∀ s instr p1 p2, current_instruction s = Except.ok instr →
      (instr.i_type = InstructionType.Add ∨
       instr.i_type = InstructionType.Multiply ∨
       instr.i_type = InstructionType.IsLessThan ∨
       instr.i_type = InstructionType.IsEqual) →
      instr.p3_mode = ParameterMode.Immediate →
      get_parameter_with_mode s 1 instr.p1_mode = Except.ok p1 →
      get_parameter_with_mode s 2 instr.p2_mode = Except.ok p2 →
      Proc.step s = Except.error Err.storeAddressImmediate ∧
      Main.step s = Except.ok (false, s)) ∧
    (∀ s instr, current_instruction s = Except.ok instr →
      instr.i_type = InstructionType.Read →
      instr.p1_mode = ParameterMode.Immediate →
      Proc.step s = Except.error Err.storeAddressImmediate ∧
      Main.step s = Except.ok (false, s)) := by
  constructor
  · intro s instr p1 p2 hI hty h3 hp1 hp2
    rw [proc_step_dispatch s instr hI, main_step_dispatch s instr hI]
    rcases hty with ht | ht | ht | ht <;>
      rw [ht] <;> dsimp only <;>
      rw [binary_operation_sAI _ s instr p1 p2 hI hp1 hp2 h3] <;>
      exact ⟨rfl, rfl⟩
  · intro s instr hI hty h1
    rw [proc_step_dispatch s instr hI, main_step_dispatch s instr hI]
    rw [hty]
    dsimp only
    rw [read_sAI s instr hI h1]
    exact ⟨rfl, rfl⟩

/-- C4 witness: the theorem applied to the concrete states
`[11102,9,9,0]` (a Multiply with all three modes Immediate) and `[103,5]`
(a Read with p1 mode Immediate). -/
theorem C4_write_target_immediate_witness :
    (Proc.step ⟨[11102, 9, 9, 0], 0, [], ""⟩ =
        Except.error Err.storeAddressImmediate ∧
      Main.step ⟨[11102, 9, 9, 0], 0, [], ""⟩ =
        Except.ok (false, ⟨[11102, 9, 9, 0], 0, [], ""⟩)) ∧
    (Proc.step ⟨[103, 5], 0, [], ""⟩ =
        Except.error Err.storeAddressImmediate ∧
      Main.step ⟨[103, 5], 0, [], ""⟩ =
        Except.ok (false, ⟨[103, 5], 0, [], ""⟩)) :=
  ⟨C4_write_target_immediate.1 ⟨[11102, 9, 9, 0], 0, [], ""⟩
      ⟨InstructionType.Multiply, ParameterMode.Immediate,
        ParameterMode.Immediate, ParameterMode.Immediate⟩ 9 9
      rfl (Or.inr (Or.inl rfl)) rfl rfl rfl,
    C4_write_target_immediate.2 ⟨[103, 5], 0, [], ""⟩
      ⟨InstructionType.Read, ParameterMode.Immediate,
        ParameterMode.Memory, ParameterMode.Memory⟩ rfl rfl rfl⟩

/-- C7 (amended): a JumpNZ or JumpZ step never mutates memory, input or
output: when its condition on `value(p1)` holds it sets the instruction
pointer to `value(p2) as usize` (the cast reduces modulo 2^64), otherwise to
`ip + 3`; the cast is the identity on non-negative values below 2^64, so for
non-negative jump targets the new instruction pointer equals `value(p2)`. -/
theorem C7_conditional_jump :
    (∀ s instr p1 p2, current_instruction s = Except.ok instr →
      get_parameter_with_mode s 1 instr.p1_mode = Except.ok p1 →
      get_parameter_with_mode s 2 instr.p2_mode = Except.ok p2 →
      ((instr.i_type = InstructionType.JumpNZ →
        Proc.step s = Except.ok (false,
          { s with ip := if p1 ≠ 0 then usizeOfI32 p2 else s.ip + 3 })) ∧
       (instr.i_type = InstructionType.JumpZ →
        Proc.step s = Except.ok (false,
          { s with ip := if p1 = 0 then usizeOfI32 p2 else s.ip + 3 })))) ∧
    (∀ x : Int, 0 ≤ x → x < 2 ^ 64 → (usizeOfI32 x : Int) = x) := by
  constructor
  · intro s instr p1 p2 hI hp1 hp2
    rw [proc_step_dispatch s instr hI]
    constructor
    · intro ht
      rw [ht]
      rw [conditional_jump_eq (fun p1 => p1 != 0) s instr p1 p2 hI hp1 hp2]
      by_cases hz : p1 = 0 <;> simp [asStep, hz]
    · intro ht
      rw [ht]
      rw [conditional_jump_eq (fun p1 => p1 == 0) s instr p1 p2 hI hp1 hp2]
      by_cases hz : p1 = 0 <;> simp [asStep, hz]
  · intro x h1 h2
    unfold usizeOfI32
    rw [Int.emod_eq_of_lt h1 h2, Int.toNat_of_nonneg h1]

/-- C7 witness: the theorem applied to the concrete state `[1105,1,7]`
(a JumpNZ with both parameters Immediate and a taken branch to 7), and the
cast identity applied at 3. -/
theorem C7_conditional_jump_witness :
    Proc.step ⟨[1105, 1, 7], 0, [], ""⟩ =
      Except.ok (false,
        ⟨[1105, 1, 7], if (1 : Int) ≠ 0 then usizeOfI32 7 else 0 + 3, [], ""⟩) ∧
    (usizeOfI32 3 : Int) = 3 :=
  ⟨(C7_conditional_jump.1 ⟨[1105, 1, 7], 0, [], ""⟩
      ⟨InstructionType.JumpNZ, ParameterMode.Immediate,
        ParameterMode.Immediate, ParameterMode.Memory⟩ 1 7
      rfl rfl rfl).1 rfl,
    C7_conditional_jump.2 3 (by norm_num) (by norm_num)⟩

/-- C8 (amended): running `[3,0,4,0,99]` with the single input line `"42"`
on the stream-parameterized interpreter (`processor.rs`) halts with the
output text exactly `"42\n"` — one line containing 42 — and in general its
Print instruction appends the decimal representation of `value(p1)` followed
by a line terminator; the stdio-hardwired interpreter (`main.rs`) instead
appends the bare decimal representation with no terminator. -/
theorem C8_print_line :
    Proc.run 4 ⟨[3, 0, 4, 0, 99], 0, ["42"], ""⟩ =
      Except.ok (some ⟨[42, 0, 4, 0, 99], 4, [], "42\n"⟩) ∧
    (∀ s instr p1, current_instruction s = Except.ok instr →
      instr.i_type = InstructionType.Print →
      get_parameter_with_mode s 1 instr.p1_mode = Except.ok p1 →
      Proc.step s = Except.ok (false,
        { s with output := s.output ++ toString p1 ++ "\n", ip := s.ip + 2 })) ∧
    (∀ s instr p1, current_instruction s = Except.ok instr →
      instr.i_type = InstructionType.Print →
      get_parameter_with_mode s 1 instr.p1_mode = Except.ok p1 →
      Main.step s = Except.ok (false,
        { s with output := s.output ++ toString p1, ip := s.ip + 2 })) := by
  refine ⟨rfl, ?_, ?_⟩
  · intro s instr p1 hI hty hp1
    rw [proc_step_dispatch s instr hI, hty,
      proc_print_eq s instr p1 hI hp1]
    rfl
  · intro s instr p1 hI hty hp1
    rw [main_step_dispatch s instr hI, hty,
      main_print_eq s instr p1 hI hp1]
    rfl

/-- C8 witness: the two Print characterizations applied to the concrete
state `[4,0,99]` (a positional Print of memory cell 0). -/
theorem C8_print_line_witness :
    Proc.step ⟨[4, 0, 99], 0, [], ""⟩ =
      Except.ok (false, ⟨[4, 0, 99], 0 + 2, [], "" ++ toString (4 : Int) ++ "\n"⟩) ∧
    Main.step ⟨[4, 0, 99], 0, [], ""⟩ =
      Except.ok (false, ⟨[4, 0, 99], 0 + 2, [], "" ++ toString (4 : Int)⟩) :=
  ⟨C8_print_line.2.1 ⟨[4, 0, 99], 0, [], ""⟩
      ⟨InstructionType.Print, ParameterMode.Memory,
        ParameterMode.Memory, ParameterMode.Memory⟩ 4 rfl rfl rfl,
    C8_print_line.2.2 ⟨[4, 0, 99], 0, [], ""⟩
      ⟨InstructionType.Print, ParameterMode.Memory,
        ParameterMode.Memory, ParameterMode.Memory⟩ 4 rfl rfl rfl⟩

theorem setMem_ok (s : State) (i : Nat) (v : Int) (t : State)
    (h : setMem s i v = Except.ok t) :
    i < s.memory.length ∧ t = { s with memory := s.memory.set i v } := by
  unfold setMem at h
  split at h
  · injection h with h
    subst h
    exact ⟨by assumption, rfl⟩
  · exact Except.noConfusion h

theorem binary_operation_ok (op : Int → Int → Int) (s t : State)
    (h : binary_operation op s = Except.ok t) :
    ∃ instr p1 p2 p3, current_instruction s = Except.ok instr ∧
      get_parameter_with_mode s 1 instr.p1_mode = Except.ok p1 ∧
      get_parameter_with_mode s 2 instr.p2_mode = Except.ok p2 ∧
      instr.p3_mode ≠ ParameterMode.Immediate ∧
      get_parameter s 3 = Except.ok p3 ∧
      usizeOfI32 p3 < s.memory.length ∧
      t = { s with memory := s.memory.set (usizeOfI32 p3) (op p1 p2),
                   ip := s.ip + 4 } := by
  unfold binary_operation at h
  split at h
  · exact Except.noConfusion h
  next instr hinstr =>
  split at h
  · exact Except.noConfusion h
  next p1 hp1 =>
  split at h
  · exact Except.noConfusion h
  next p2 hp2 =>
  split at h
  · exact Except.noConfusion h
  next hmode =>
  split at h
  · exact Except.noConfusion h
  next p3 hp3 =>
  split at h
  · exact Except.noConfusion h
  next u hset =>
  injection h with h
  obtain ⟨hlt, hu⟩ := setMem_ok s (usizeOfI32 p3) (op p1 p2) u hset
  subst hu
  subst h
  exact ⟨instr, p1, p2, p3, hinstr, hp1, hp2, hmode, hp3, hlt, rfl⟩

/-- C6: when a step whose current instruction is Add, Multiply, IsLessThan
or IsEqual succeeds, every memory address other than the instruction's
declared write-target (`memory[ip+3] as usize`) holds the same value after
the step as before it (and the memory length is unchanged). -/
theorem C6_binary_frame :
    ∀ s instr b t, current_instruction s = Except.ok instr →
      (instr.i_type = InstructionType.Add ∨
       instr.i_type = InstructionType.Multiply ∨
       instr.i_type = InstructionType.IsLessThan ∨
       instr.i_type = InstructionType.IsEqual) →
      Proc.step s = Except.ok (b, t) →
      ∃ p3, get_parameter s 3 = Except.ok p3 ∧
        t.memory.length = s.memory.length ∧
        ∀ j, j ≠ usizeOfI32 p3 → t.memory.get? j = s.memory.get? j := by
  intro s instr b t hI hty hstep
  rw [proc_step_dispatch s instr hI] at hstep
  have hbo : ∃ op, binary_operation op s = Except.ok t := by
    rcases hty with ht | ht | ht | ht <;> rw [ht] at hstep <;>
      dsimp only at hstep <;> unfold asStep at hstep <;> split at hstep <;>
      first
      | exact Except.noConfusion hstep
      | (injection hstep with hstep
         next u hu =>
           injection hstep with hb hu2
           subst hu2
           exact ⟨_, hu⟩)
  obtain ⟨op, hbo⟩ := hbo
  obtain ⟨instr2, p1, p2, p3, _, _, _, _, hp3, hlt, ht⟩ :=
    binary_operation_ok op s t hbo
  refine ⟨p3, hp3, ?_, ?_⟩
  · rw [ht]
    exact List.length_set s.memory _ _
  · intro j hj
    rw [ht]
    exact List.get?_set_ne (op p1 p2) s.memory (fun hc => hj hc.symm)

/-- C6 witness: the frame property applied to one successful Add step on
the program `[1,0,0,0,99]` (which self-adds cell 0, producing memory
`[2,0,0,0,99]`). -/
theorem C6_binary_frame_witness :
    ∃ p3, get_parameter ⟨[1, 0, 0, 0, 99], 0, [], ""⟩ 3 = Except.ok p3 ∧
      ([2, 0, 0, 0, 99] : List Int).length =
        ([1, 0, 0, 0, 99] : List Int).length ∧
      ∀ j, j ≠ usizeOfI32 p3 →
        ([2, 0, 0, 0, 99] : List Int).get? j =
          ([1, 0, 0, 0, 99] : List Int).get? j :=
  C6_binary_frame ⟨[1, 0, 0, 0, 99], 0, [], ""⟩
    ⟨InstructionType.Add, ParameterMode.Memory, ParameterMode.Memory,
      ParameterMode.Memory⟩ false ⟨[2, 0, 0, 0, 99], 4, [], ""⟩
    rfl (Or.inl rfl) rfl

/-- C9: an out-of-bounds dereference is fatal and stops the run, in both
versions: a step failing with the out-of-bounds error makes the whole run
loop abort with exactly that error; fetching the instruction with the
instruction pointer outside the tape fails with the out-of-bounds error at
that address; and dereferencing a negative positional parameter (whose
`as usize` cast lands at least at 2^63) is out of bounds for any tape of
length at most 2^63. -/
theorem C9_oob_fatal :
    (∀ s a fuel, Proc.step s = Except.error (Err.oob a) →
      Proc.run (fuel + 1) s = Except.error (Err.oob a)) ∧
    (∀ s a fuel, Main.step s = Except.error (Err.oob a) →
      Main.run (fuel + 1) s = Except.error (Err.oob a)) ∧
    (∀ s, s.memory.length ≤ s.ip →
      Proc.step s = Except.error (Err.oob s.ip)) ∧
    (∀ s x, x < 0 → -(2 ^ 31) ≤ x → s.memory.length ≤ 2 ^ 63 →
      getMem s (usizeOfI32 x) = Except.error (Err.oob (usizeOfI32 x))) := by
  refine ⟨?_, ?_, ?_, ?_⟩
  · intro s a fuel h
    show Proc.run (fuel + 1) s = _
    rw [Proc.run, h]
  · intro s a fuel h
    show Main.run (fuel + 1) s = _
    rw [Main.run, h]
  · intro s hlen
    have hfetch : current_instruction s = Except.error (Err.oob s.ip) := by
      unfold current_instruction getMem
      rw [List.get?_eq_none.mpr hlen]
    exact proc_step_err s (Err.oob s.ip) hfetch
  · intro s x h1 h2 hlen
    have hbig : s.memory.length ≤ usizeOfI32 x := by
      unfold usizeOfI32
      omega
    unfold getMem
    rw [List.get?_eq_none.mpr hbig]

/-- C9 witness: the clauses applied to concrete states — `[5]` (a JumpNZ
whose positional p1 read dereferences address 1, out of bounds), `[99]`
with `ip = 1` (instruction fetch out of bounds), and the negative
positional address `-1` against the one-cell tape `[99]`. -/
theorem C9_oob_fatal_witness :
    Proc.run 1 ⟨[5], 0, [], ""⟩ = Except.error (Err.oob 1) ∧
    Main.run 1 ⟨[5], 0, [], ""⟩ = Except.error (Err.oob 1) ∧
    Proc.step ⟨[99], 1, [], ""⟩ = Except.error (Err.oob 1) ∧
    getMem ⟨[99], 0, [], ""⟩ (usizeOfI32 (-1)) =
      Except.error (Err.oob (usizeOfI32 (-1))) :=
  ⟨C9_oob_fatal.1 ⟨[5], 0, [], ""⟩ 1 0 rfl,
    C9_oob_fatal.2.1 ⟨[5], 0, [], ""⟩ 1 0 rfl,
    C9_oob_fatal.2.2.1 ⟨[99], 1, [], ""⟩ (by norm_num),
    C9_oob_fatal.2.2.2 ⟨[99], 0, [], ""⟩ (-1) (by norm_num) (by norm_num)
      (by norm_num)⟩

/-- C10: the interpreter is deterministic — the run is a function of the
initial memory, instruction pointer, input lines and accumulated output
alone, so two runs from states agreeing on those components produce
identical results (same final memory, instruction pointer, remaining input
and output text, or the same error). -/
theorem C10_deterministic :
    ∀ fuel s1 s2, s1.memory = s2.memory → s1.ip = s2.ip →
      s1.input = s2.input → s1.output = s2.output →
      Proc.run fuel s1 = Proc.run fuel s2 := by
  intro fuel s1 s2 h1 h2 h3 h4
  have hs : s1 = s2 := by
    cases s1
    cases s2
    simp_all
  rw [hs]

/-- C10 witness: determinism applied to two (syntactically equal) copies of
the initial state of the program `[99]`. -/
theorem C10_deterministic_witness :
    Proc.run 1 ⟨[99], 0, [], ""⟩ = Proc.run 1 ⟨[99], 0, [], ""⟩ :=
  C10_deterministic 1 ⟨[99], 0, [], ""⟩ ⟨[99], 0, [], ""⟩ rfl rfl rfl rfl

theorem shared_handler_rel (s : State) (r : Except Err State) :
    (∃ t, asStep r = Except.ok (false, t) ∧
      Main.swallow s r = Except.ok (false, t)) ∨
    (asStep r = Except.error Err.storeAddressImmediate ∧
      Main.swallow s r = Except.ok (false, s)) ∨
    (∃ e, asStep r = Except.error e ∧ Main.swallow s r = Except.error e) := by
  cases r with
  | ok t => exact Or.inl ⟨t, rfl, rfl⟩
  | error e =>
      cases e with
      | storeAddressImmediate => exact Or.inr (Or.inl ⟨rfl, rfl⟩)
      | invalidOpcode v => exact Or.inr (Or.inr ⟨_, rfl, rfl⟩)
      | invalidParameterMode v => exact Or.inr (Or.inr ⟨_, rfl, rfl⟩)
      | oob addr => exact Or.inr (Or.inr ⟨_, rfl, rfl⟩)
      | noInputLine => exact Or.inr (Or.inr ⟨_, rfl, rfl⟩)
      | badInputLine line => exact Or.inr (Or.inr ⟨_, rfl, rfl⟩)

theorem print_rel (s : State) :
    (∃ t u, Proc.print s = Except.ok t ∧ Main.print s = Except.ok u ∧
      u.memory = t.memory ∧ u.ip = t.ip ∧ u.input = t.input ∧
      t.output = u.output ++ "\n") ∨
    (∃ e, Proc.print s = Except.error e ∧ Main.print s = Except.error e) := by
  cases hI : current_instruction s with
  | error e =>
      refine Or.inr ⟨e, ?_, ?_⟩
      · unfold Proc.print
        rw [hI]
      · unfold Main.print
        rw [hI]
  | ok instr =>
      cases hp : get_parameter_with_mode s 1 instr.p1_mode with
      | error e =>
          refine Or.inr ⟨e, ?_, ?_⟩
          · unfold Proc.print
            rw [hI]
            dsimp only
            rw [hp]
          · unfold Main.print
            rw [hI]
            dsimp only
            rw [hp]
      | ok p1 =>
          exact Or.inl ⟨_, _, proc_print_eq s instr p1 hI hp,
            main_print_eq s instr p1 hI hp, rfl, rfl, rfl, rfl⟩

/-- C2 (amended): at every state the two versions of `step` are related as
follows — they agree exactly on halting, on the successor memory,
instruction pointer and remaining input, and on every error other than the
write-target-mode one; they differ in exactly two ways: a successful Print
leaves the `main.rs` output without the line terminator that the
`processor.rs` output gets, and on the write-target-mode error the
`processor.rs` step aborts while the `main.rs` step discards the error and
leaves the state unchanged.  (The unamended claim — same output text and
same abort behaviour — is false; see the counterexample.) -/
theorem C2_step_equivalence (s : State) :
    (Proc.step s = Except.ok (true, s) ∧ Main.step s = Except.ok (true, s)) ∨
    (∃ t, Proc.step s = Except.ok (false, t) ∧
      Main.step s = Except.ok (false, t)) ∨
    (∃ t u, Proc.step s = Except.ok (false, t) ∧
      Main.step s = Except.ok (false, u) ∧ u.memory = t.memory ∧
      u.ip = t.ip ∧ u.input = t.input ∧ t.output = u.output ++ "\n") ∨
    (Proc.step s = Except.error Err.storeAddressImmediate ∧
      Main.step s = Except.ok (false, s)) ∨
    (∃ e, Proc.step s = Except.error e ∧ Main.step s = Except.error e) := by
  cases hI : current_instruction s with
  | error e =>
      exact Or.inr (Or.inr (Or.inr (Or.inr
        ⟨e, proc_step_err s e hI, main_step_err s e hI⟩)))
  | ok instr =>
      rw [proc_step_dispatch s instr hI, main_step_dispatch s instr hI]
      obtain ⟨ty, m1, m2, m3⟩ := instr
      cases ty
      case Halt => exact Or.inl ⟨rfl, rfl⟩
      case Print =>
          dsimp only
          rcases print_rel s with ⟨t, u, hp, hm, h1, h2, h3, h4⟩ |
            ⟨e, hp, hm⟩
          · exact Or.inr (Or.inr (Or.inl ⟨t, u, by rw [hp]; rfl,
              by rw [hm]; rfl, h1, h2, h3, h4⟩))
          · rw [hp, hm]
            rcases shared_handler_rel s (Except.error e) with
              ⟨t, hp2, hm2⟩ | ⟨hp2, hm2⟩ | ⟨e2, hp2, hm2⟩
            · exact Or.inr (Or.inl ⟨t, hp2, hm2⟩)
            · exact Or.inr (Or.inr (Or.inr (Or.inl ⟨hp2, hm2⟩)))
            · exact Or.inr (Or.inr (Or.inr (Or.inr ⟨e2, hp2, hm2⟩)))
      all_goals
          dsimp only
          rcases shared_handler_rel s _ with ⟨t, hp, hm⟩ | ⟨hp, hm⟩ |
            ⟨e, hp, hm⟩
          · exact Or.inr (Or.inl ⟨t, hp, hm⟩)
          · exact Or.inr (Or.inr (Or.inr (Or.inl ⟨hp, hm⟩)))
          · exact Or.inr (Or.inr (Or.inr (Or.inr ⟨e, hp, hm⟩)))

end Intcode
